import Mathlib

/-!
# lilypad: solver HTTP server and web3 SDK

A shallow embedding of `pkg/solver/server.go` and `pkg/web3/api.go`.

Conventions of the embedding:

* A Go result `(T, error)` is a pair `T × Option GoError`; `none` is the `nil` error.
  A Go result `(*T, error)` is a pair `Option T × Option GoError`; `none` is the `nil` pointer.
* The controller, the store and the ledger are stateful collaborators that live outside
  the embedded files.  Their operations are fields of a record, each a function on an
  abstract state `σ`.  A `World` carries that state together with a `trace`: every call
  of a collaborator goes through a wrapper that appends one entry to the trace, so
  the number, order and arguments of the calls made by a handler can be read off.
* Types declared in packages that are not embedded (`data.JobOffer`, `data.Deal`, ...)
  keep the fields the embedded code reads; the fields it never touches are carried in
  a component `Rest` of arbitrary type.
-/

/-- Go `error` value: only the message is observable. -/
structure GoError where
  msg : String
deriving DecidableEq, Repr

/-- Result of `fmt.Errorf` with a format string that has no verbs. -/
def fmt_Errorf (msg : String) : GoError := ⟨msg⟩

/-- State of the collaborators together with the list of calls made so far. -/
structure World (σ ε : Type) where
  state : σ
  trace : List ε
deriving DecidableEq, Repr

namespace solver

/-- The `url.Values` / `http.Header` map of the Go standard library. -/
abbrev Values := List (String × List String)

/-- The method `Values.Get`: first value stored under the key, `""` when there is none. -/
def Values.Get (v : Values) (key : String) : String :=
  match v.lookup key with
  | some (x :: _) => x
  | _ => ""

/-- The parts of `*http.Request` that the handlers and their helpers read. -/
structure Request where
  Header : Values
  URLQuery : Values
  Body : String
deriving DecidableEq, Repr

/-- The type `data.JobOffer`: the server reads only `JobCreator`. -/
structure JobOffer (ρ : Type) where
  JobCreator : String
  Rest : ρ
deriving DecidableEq, Repr

/-- The type `data.ResourceOffer`: the server reads only `ResourceProvider`. -/
structure ResourceOffer (ρ : Type) where
  ResourceProvider : String
  Rest : ρ
deriving DecidableEq, Repr

/-- Modelled from the spec: the type `store.GetJobOffersQuery`, declared in package
`pkg/solver/store`.  The spec gives the filter as an optional creator and the handler
assigns the field `JobCreator`; the zero value has the empty `JobCreator`. -/
structure GetJobOffersQuery where
  JobCreator : String := ""
deriving DecidableEq, Repr

/-- Modelled from the spec: the type `store.GetResourceOffersQuery`, declared in package
`pkg/solver/store`.  The spec gives the filter as an optional provider and the handler
assigns the field `ResourceProvider`; the zero value has the empty `ResourceProvider`. -/
structure GetResourceOffersQuery where
  ResourceProvider : String := ""
deriving DecidableEq, Repr

/-- Helpers of package `pkg/http` used by the handlers. -/
structure HttpHelpers (ρJ ρR : Type) where
  GetAddressFromHeaders : Request → String × Option GoError
  ReadBodyJobOffer : Request → JobOffer ρJ × Option GoError
  ReadBodyResourceOffer : Request → ResourceOffer ρR × Option GoError

/-- The operations of `*SolverController` called by the server. -/
structure SolverController (σ ρJ ρR : Type) where
  addJobOffer : JobOffer ρJ → σ → (Option (JobOffer ρJ) × Option GoError) × σ
  addResourceOffer : ResourceOffer ρR → σ → (Option (ResourceOffer ρR) × Option GoError) × σ

/-- The operations of `store.SolverStore` called by the server. -/
structure SolverStore (σ ρJ ρR : Type) where
  GetJobOffers : GetJobOffersQuery → σ → (List (JobOffer ρJ) × Option GoError) × σ
  GetResourceOffers :
    GetResourceOffersQuery → σ → (List (ResourceOffer ρR) × Option GoError) × σ

/-- The struct `solverServer` (its `options` field is only read by `ListenAndServe`). -/
structure solverServer (σ ρJ ρR : Type) where
  controller : SolverController σ ρJ ρR
  store : SolverStore σ ρJ ρR

/-- One entry of the trace: a call of the controller or of the store. -/
inductive Call (ρJ ρR : Type) where
  | controller_addJobOffer (jobOffer : JobOffer ρJ)
  | controller_addResourceOffer (resourceOffer : ResourceOffer ρR)
  | store_GetJobOffers (query : GetJobOffersQuery)
  | store_GetResourceOffers (query : GetResourceOffersQuery)
deriving DecidableEq, Repr

variable {σ ρJ ρR : Type}

/-- Traced call `solverServer.controller.addJobOffer(jobOffer)`. -/
def call_controller_addJobOffer (srv : solverServer σ ρJ ρR) (jobOffer : JobOffer ρJ)
    (w : World σ (Call ρJ ρR)) :
    (Option (JobOffer ρJ) × Option GoError) × World σ (Call ρJ ρR) :=
  let r := srv.controller.addJobOffer jobOffer w.state
  (r.1, { state := r.2, trace := w.trace ++ [Call.controller_addJobOffer jobOffer] })

/-- Traced call `solverServer.controller.addResourceOffer(resourceOffer)`. -/
def call_controller_addResourceOffer (srv : solverServer σ ρJ ρR)
    (resourceOffer : ResourceOffer ρR) (w : World σ (Call ρJ ρR)) :
    (Option (ResourceOffer ρR) × Option GoError) × World σ (Call ρJ ρR) :=
  let r := srv.controller.addResourceOffer resourceOffer w.state
  (r.1, { state := r.2, trace := w.trace ++ [Call.controller_addResourceOffer resourceOffer] })

/-- Traced call `solverServer.store.GetJobOffers(query)`. -/
def call_store_GetJobOffers (srv : solverServer σ ρJ ρR) (query : GetJobOffersQuery)
    (w : World σ (Call ρJ ρR)) :
    (List (JobOffer ρJ) × Option GoError) × World σ (Call ρJ ρR) :=
  let r := srv.store.GetJobOffers query w.state
  (r.1, { state := r.2, trace := w.trace ++ [Call.store_GetJobOffers query] })

/-- Traced call `solverServer.store.GetResourceOffers(query)`. -/
def call_store_GetResourceOffers (srv : solverServer σ ρJ ρR)
    (query : GetResourceOffersQuery) (w : World σ (Call ρJ ρR)) :
    (List (ResourceOffer ρR) × Option GoError) × World σ (Call ρJ ρR) :=
  let r := srv.store.GetResourceOffers query w.state
  (r.1, { state := r.2, trace := w.trace ++ [Call.store_GetResourceOffers query] })

/-- The handler `solverServer.getJobOffers` (server.go:114). -/
def solverServer.getJobOffers (srv : solverServer σ ρJ ρR) (req : Request)
    (w : World σ (Call ρJ ρR)) :
    (List (JobOffer ρJ) × Option GoError) × World σ (Call ρJ ρR) :=
  let query : GetJobOffersQuery := {}
  let jobCreator := req.URLQuery.Get "job_creator"
  let query := if jobCreator ≠ "" then { query with JobCreator := jobCreator } else query
  call_store_GetJobOffers srv query w

/-- The handler `solverServer.getResourceOffers` (server.go:123). -/
def solverServer.getResourceOffers (srv : solverServer σ ρJ ρR) (req : Request)
    (w : World σ (Call ρJ ρR)) :
    (List (ResourceOffer ρR) × Option GoError) × World σ (Call ρJ ρR) :=
  let query : GetResourceOffersQuery := {}
  let resourceProvider := req.URLQuery.Get "resource_provider"
  let query :=
    if resourceProvider ≠ "" then { query with ResourceProvider := resourceProvider } else query
  call_store_GetResourceOffers srv query w

/-- The handler `solverServer.addJobOffer` (server.go:132). -/
def solverServer.addJobOffer (srv : solverServer σ ρJ ρR) (http : HttpHelpers ρJ ρR)
    (req : Request) (w : World σ (Call ρJ ρR)) :
    (Option (JobOffer ρJ) × Option GoError) × World σ (Call ρJ ρR) :=
  let (signerAddress, err) := http.GetAddressFromHeaders req
  match err with
  | some err => ((none, some err), w)
  | none =>
    let (jobOffer, err) := http.ReadBodyJobOffer req
    match err with
    | some err => ((none, some err), w)
    | none =>
      -- only the job creator can post a job offer
      if signerAddress ≠ jobOffer.JobCreator then
        ((none, some (fmt_Errorf "job creator address does not match signer address")), w)
      else
        call_controller_addJobOffer srv jobOffer w

/-- The handler `solverServer.addResourceOffer` (server.go:148). -/
def solverServer.addResourceOffer (srv : solverServer σ ρJ ρR) (http : HttpHelpers ρJ ρR)
    (req : Request) (w : World σ (Call ρJ ρR)) :
    (Option (ResourceOffer ρR) × Option GoError) × World σ (Call ρJ ρR) :=
  let (signerAddress, err) := http.GetAddressFromHeaders req
  match err with
  | some err => ((none, some err), w)
  | none =>
    let (resourceOffer, err) := http.ReadBodyResourceOffer req
    match err with
    | some err => ((none, some err), w)
    | none =>
      if signerAddress ≠ resourceOffer.ResourceProvider then
        ((none,
          some (fmt_Errorf "resource provider address does not match signer address")), w)
      else
        call_controller_addResourceOffer srv resourceOffer w

/-- What the goroutine started at server.go:57 reads and writes.

* `eventChannel`: the events the controller has sent on `getEventChannel()` and that
  have not been received yet, oldest first;
* `ctxDone`: the channel `ctx.Done()` is closed (shutdown has been requested);
* `websocketEventChannel`: the messages sent on `websocketEventChannel`, oldest first
  (the reader of that channel is taken to be always ready, so a send never blocks);
* `stdout`, `errorLog`: output of `fmt.Printf` and of `log.Error()`;
* `returned`: the goroutine has executed a `return`. -/
structure Forwarder (Ev : Type) where
  eventChannel : List Ev
  ctxDone : Bool
  websocketEventChannel : List (List Nat)
  stdout : List String
  errorLog : List String
  returned : Bool
deriving DecidableEq, Repr

/-- The case of the `select` at server.go:58 that fires. -/
inductive SelectCase (Ev : Type) where
  | recvEvent (ev : Ev)
  | ctxDone
deriving DecidableEq, Repr

/-- Go `select` over `<-getEventChannel()` and `<-ctx.Done()`: it blocks (`none`) while
neither is ready, takes the only ready case, and when both are ready the runtime picks
one; `pickDone` is that pick. -/
def selectCase {Ev : Type} (s : Forwarder Ev) (pickDone : Bool) : Option (SelectCase Ev) :=
  match s.eventChannel, s.ctxDone with
  | [], false => none
  | [], true => some SelectCase.ctxDone
  | ev :: _, false => some (SelectCase.recvEvent ev)
  | ev :: _, true => if pickDone then some SelectCase.ctxDone else some (SelectCase.recvEvent ev)

/-- The goroutine started in `solverServer.ListenAndServe` (server.go:57-71), run from
state `s` until it blocks or returns.  `Marshal` is `json.Marshal` (bytes and error) and
`Sprint` renders an event with the verb `%+v`.  The body is a single `select`, not
enclosed in a `for`: both cases end in `return`. -/
def ListenAndServe_forward {Ev : Type} (Marshal : Ev → List Nat × Option GoError)
    (Sprint : Ev → String) (pickDone : Bool) (s : Forwarder Ev) : Forwarder Ev :=
  if s.returned then s
  else
    match selectCase s pickDone with
    | none => s
    | some SelectCase.ctxDone => { s with returned := true }
    | some (SelectCase.recvEvent ev) =>
      let s := { s with eventChannel := s.eventChannel.tail }
      -- we write this event to all connected web socket connections
      let s := { s with stdout := s.stdout ++ ["got controller event: " ++ Sprint ev ++ "\n"] }
      let (evBytes, err) := Marshal ev
      let s :=
        match err with
        | some err => { s with errorLog := s.errorLog ++ ["Error marshalling event: " ++ err.msg] }
        | none => s
      let s := { s with websocketEventChannel := s.websocketEventChannel ++ [evBytes] }
      { s with returned := true }

/-- The goroutine given the processor `n` times, the runtime resolving every `select`
with `pickDone`. -/
def ListenAndServe_forward_run {Ev : Type} (Marshal : Ev → List Nat × Option GoError)
    (Sprint : Ev → String) (pickDone : Bool) (n : Nat) (s : Forwarder Ev) : Forwarder Ev :=
  (ListenAndServe_forward Marshal Sprint pickDone)^[n] s

/-- State of the goroutine when it starts while the controller has emitted `events`
and shutdown has not been requested. -/
def Forwarder.start {Ev : Type} (events : List Ev) : Forwarder Ev :=
  { eventChannel := events, ctxDone := false, websocketEventChannel := [], stdout := [],
    errorLog := [], returned := false }

end solver

namespace web3

/-- The type `data.DealMembers`: `Agree` reads the list `Mediators`. -/
structure DealMembers (μ : Type) where
  Mediators : List String
  Rest : μ
deriving DecidableEq, Repr

/-- The type `data.Deal`: `Agree` reads `ID`, `Members`, `Timeouts` and `Pricing`. -/
structure Deal (μ τ π δ : Type) where
  ID : String
  Members : DealMembers μ
  Timeouts : τ
  Pricing : π
  Rest : δ
deriving DecidableEq, Repr

/-- The type `users.SharedStructsUser`: `GetSolverUrl` reads `UserAddress` and `Url`. -/
structure SharedStructsUser (Addr ρU : Type) where
  UserAddress : Addr
  Url : String
  Rest : ρU
deriving DecidableEq, Repr

/-- Package-level functions used by `api.go` and defined elsewhere:
`common.HexToAddress`, the converters of package `data`, and `tx.Hash().String()`. -/
structure Pkg (Addr Tx μ τ π CM CT CP : Type) where
  HexToAddress : String → Addr
  ConvertDealMembers : DealMembers μ → CM
  ConvertDealTimeouts : τ → CT
  ConvertDealPricing : π → CP
  TxHashString : Tx → String

/-- The fields of `*Web3SDK` read by `api.go`, the contract bindings
`sdk.Contracts.Controller.Agree` and `sdk.Contracts.Users.GetUser`, and the method
`sdk.waitTx`. -/
structure Web3SDK (σ Addr Tx Rcpt TOpts COpts ρU CM CT CP : Type) where
  Service : String
  CallOpts : COpts
  TransactOpts : TOpts
  Contracts_Controller_Agree : TOpts → String → CM → CT → CP → σ → (Tx × Option GoError) × σ
  Contracts_Users_GetUser : COpts → Addr → σ → (SharedStructsUser Addr ρU × Option GoError) × σ
  waitTx : Tx → σ → (Rcpt × Option GoError) × σ

/-- One entry of the trace: a call of a contract binding, of `waitTx`, or of a logger
of package `system`. -/
inductive Call (Addr Tx TOpts COpts CM CT CP : Type) where
  | Controller_Agree (opts : TOpts) (dealId : String) (members : CM) (timeouts : CT)
      (pricing : CP)
  | Users_GetUser (opts : COpts) (address : Addr)
  | waitTx (tx : Tx)
  | system_Error (service : String) (message : String) (err : GoError)
  | system_Info (service : String) (message : String) (tx : Tx)
deriving DecidableEq, Repr

/-- The entry is a submission of an agree transaction. -/
def Call.isAgree {Addr Tx TOpts COpts CM CT CP : Type} :
    Call Addr Tx TOpts COpts CM CT CP → Bool
  | Call.Controller_Agree _ _ _ _ _ => true
  | _ => false

/-- The entry is a confirmation wait. -/
def Call.isWaitTx {Addr Tx TOpts COpts CM CT CP : Type} :
    Call Addr Tx TOpts COpts CM CT CP → Bool
  | Call.waitTx _ => true
  | _ => false

variable {σ Addr Tx Rcpt TOpts COpts ρU CM CT CP μ τ π δ : Type}

/-- Traced call `sdk.Contracts.Controller.Agree(opts, dealId, members, timeouts, pricing)`. -/
def call_Controller_Agree (sdk : Web3SDK σ Addr Tx Rcpt TOpts COpts ρU CM CT CP)
    (opts : TOpts) (dealId : String) (members : CM) (timeouts : CT) (pricing : CP)
    (w : World σ (Call Addr Tx TOpts COpts CM CT CP)) :
    (Tx × Option GoError) × World σ (Call Addr Tx TOpts COpts CM CT CP) :=
  let r := sdk.Contracts_Controller_Agree opts dealId members timeouts pricing w.state
  (r.1, { state := r.2,
          trace := w.trace ++ [Call.Controller_Agree opts dealId members timeouts pricing] })

/-- Traced call `sdk.Contracts.Users.GetUser(opts, address)`. -/
def call_Users_GetUser (sdk : Web3SDK σ Addr Tx Rcpt TOpts COpts ρU CM CT CP)
    (opts : COpts) (address : Addr) (w : World σ (Call Addr Tx TOpts COpts CM CT CP)) :
    (SharedStructsUser Addr ρU × Option GoError) × World σ (Call Addr Tx TOpts COpts CM CT CP) :=
  let r := sdk.Contracts_Users_GetUser opts address w.state
  (r.1, { state := r.2, trace := w.trace ++ [Call.Users_GetUser opts address] })

/-- Traced call `sdk.waitTx(tx)`. -/
def call_waitTx (sdk : Web3SDK σ Addr Tx Rcpt TOpts COpts ρU CM CT CP) (tx : Tx)
    (w : World σ (Call Addr Tx TOpts COpts CM CT CP)) :
    (Rcpt × Option GoError) × World σ (Call Addr Tx TOpts COpts CM CT CP) :=
  let r := sdk.waitTx tx w.state
  (r.1, { state := r.2, trace := w.trace ++ [Call.waitTx tx] })

/-- Traced call `system.Error(service, message, err)`. -/
def call_system_Error (service : String) (message : String) (err : GoError)
    (w : World σ (Call Addr Tx TOpts COpts CM CT CP)) :
    World σ (Call Addr Tx TOpts COpts CM CT CP) :=
  { w with trace := w.trace ++ [Call.system_Error service message err] }

/-- Traced call `system.Info(service, message, tx)`. -/
def call_system_Info (service : String) (message : String) (tx : Tx)
    (w : World σ (Call Addr Tx TOpts COpts CM CT CP)) :
    World σ (Call Addr Tx TOpts COpts CM CT CP) :=
  { w with trace := w.trace ++ [Call.system_Info service message tx] }

/-- The method `Web3SDK.GetSolverUrl` (api.go:80). -/
def Web3SDK.GetSolverUrl [DecidableEq Addr]
    (sdk : Web3SDK σ Addr Tx Rcpt TOpts COpts ρU CM CT CP)
    (pkg : Pkg Addr Tx μ τ π CM CT CP) (address : String)
    (w : World σ (Call Addr Tx TOpts COpts CM CT CP)) :
    (String × Option GoError) × World σ (Call Addr Tx TOpts COpts CM CT CP) :=
  let ((solver, err), w) := call_Users_GetUser sdk sdk.CallOpts (pkg.HexToAddress address) w
  match err with
  | some err => (("", some err), w)
  | none =>
    if solver.UserAddress = pkg.HexToAddress "0x0" then
      (("", some (fmt_Errorf ("no solver found for address: " ++ address))), w)
    else
      ((solver.Url, none), w)

/-- The method `Web3SDK.Agree` (api.go:95).  The list `mediators` built by the first
loop is not used by the rest of the body, as in the source. -/
def Web3SDK.Agree (sdk : Web3SDK σ Addr Tx Rcpt TOpts COpts ρU CM CT CP)
    (pkg : Pkg Addr Tx μ τ π CM CT CP) (deal : Deal μ τ π δ)
    (w : World σ (Call Addr Tx TOpts COpts CM CT CP)) :
    (String × Option GoError) × World σ (Call Addr Tx TOpts COpts CM CT CP) :=
  let _mediators : List Addr :=
    deal.Members.Mediators.foldl
      (fun mediators mediator => mediators ++ [pkg.HexToAddress mediator]) []
  let ((tx, err), w) :=
    call_Controller_Agree sdk sdk.TransactOpts deal.ID
      (pkg.ConvertDealMembers deal.Members)
      (pkg.ConvertDealTimeouts deal.Timeouts)
      (pkg.ConvertDealPricing deal.Pricing) w
  match err with
  | some err =>
    let w := call_system_Error sdk.Service "error submitting agree tx" err w
    (("", some err), w)
  | none =>
    let w := call_system_Info sdk.Service "submitted agree tx" tx w
    let ((_, err), w) := call_waitTx sdk tx w
    match err with
    | some err => (("", some err), w)
    | none => ((pkg.TxHashString tx, none), w)

end web3

namespace demo

/-!
## A small concrete instance

An in-memory marketplace and ledger on which the definitions above can be evaluated.
-/

/-- In-memory state behind the controller and the store: the offers persisted and the
number of events the controller has emitted. -/
structure Market where
  jobOffers : List (solver.JobOffer String)
  resourceOffers : List (solver.ResourceOffer String)
  events : Nat
deriving DecidableEq, Repr

/-- A controller that persists every offer it is given and emits one event for it. -/
def controller : solver.SolverController Market String String where
  addJobOffer := fun o s =>
    ((some o, none), { s with jobOffers := s.jobOffers ++ [o], events := s.events + 1 })
  addResourceOffer := fun o s =>
    ((some o, none), { s with resourceOffers := s.resourceOffers ++ [o], events := s.events + 1 })

/-- A store whose reads filter on the owner when the query names one. -/
def store : solver.SolverStore Market String String where
  GetJobOffers := fun q s =>
    ((s.jobOffers.filter (fun o => q.JobCreator = "" ∨ o.JobCreator = q.JobCreator), none), s)
  GetResourceOffers := fun q s =>
    ((s.resourceOffers.filter
        (fun o => q.ResourceProvider = "" ∨ o.ResourceProvider = q.ResourceProvider), none), s)

/-- The server over the in-memory controller and store. -/
def server : solver.solverServer Market String String :=
  { controller := controller, store := store }

/-- Helpers that take the signer from the header `X-Lilypad-User` and decode the body
as the owner of an offer. -/
def http : solver.HttpHelpers String String where
  GetAddressFromHeaders := fun req =>
    if req.Header.Get "X-Lilypad-User" = "" then ("", some ⟨"missing signature"⟩)
    else (req.Header.Get "X-Lilypad-User", none)
  ReadBodyJobOffer := fun req =>
    if req.Body = "" then (⟨"", ""⟩, some ⟨"EOF"⟩) else (⟨req.Body, "4 CPU"⟩, none)
  ReadBodyResourceOffer := fun req =>
    if req.Body = "" then (⟨"", ""⟩, some ⟨"EOF"⟩) else (⟨req.Body, "8 CPU"⟩, none)

/-- A market with one job offer of alice and one resource offer of bob. -/
def market : Market :=
  { jobOffers := [⟨"alice", "4 CPU"⟩], resourceOffers := [⟨"bob", "8 CPU"⟩], events := 2 }

/-- The world before a request is handled. -/
def world : World Market (solver.Call String String) :=
  { state := market, trace := [] }

/-- A POST request signed by alice whose body declares carol as owner. -/
def reqAliceAsCarol : solver.Request :=
  { Header := [("X-Lilypad-User", ["alice"])], URLQuery := [], Body := "carol" }

/-- A POST request signed by alice whose body declares alice as owner. -/
def reqAlice : solver.Request :=
  { Header := [("X-Lilypad-User", ["alice"])], URLQuery := [], Body := "alice" }

/-- A GET request with the filter `job_creator=alice`. -/
def reqListAlice : solver.Request :=
  { Header := [], URLQuery := [("job_creator", ["alice"])], Body := "" }

/-- A GET request without any filter. -/
def reqListAll : solver.Request :=
  { Header := [], URLQuery := [], Body := "" }

/-- An encoder that fails on the event 0 and encodes any other event as one byte. -/
def Marshal (ev : Nat) : List Nat × Option GoError :=
  if ev = 0 then ([], some ⟨"json: unsupported value"⟩) else ([ev], none)

/-- Rendering of an event for the console. -/
def Sprint (ev : Nat) : String := String.replicate ev 'e'

/-- A ledger: the deals submitted so far, the registered users, and how the next
submission and the next confirmation wait turn out. -/
structure Ledger where
  submitted : List String
  users : List (web3.SharedStructsUser String Unit)
  rejectSubmission : Bool
  confirmationFails : Bool
deriving DecidableEq, Repr

/-- Package-level functions of the instance: addresses are their hex strings, the
converters keep the mediators, the timeouts and the pricing, and a transaction is
named by its hash. -/
def pkg : web3.Pkg String String Unit Nat Nat (List String) Nat Nat where
  HexToAddress := fun s => s
  ConvertDealMembers := fun m => m.Mediators
  ConvertDealTimeouts := fun t => t
  ConvertDealPricing := fun p => p
  TxHashString := fun tx => tx

/-- An SDK over the in-memory ledger. -/
def sdk : web3.Web3SDK Ledger String String Bool Unit Unit Unit (List String) Nat Nat where
  Service := "solver"
  CallOpts := ()
  TransactOpts := ()
  Contracts_Controller_Agree := fun _ dealId _ _ _ s =>
    if s.rejectSubmission then (("", some ⟨"execution reverted"⟩), s)
    else (("0x" ++ dealId, none), { s with submitted := s.submitted ++ [dealId] })
  Contracts_Users_GetUser := fun _ address s =>
    match s.users.find? (fun u => u.UserAddress = address) with
    | some u => ((u, none), s)
    | none => ((⟨"0x0", "", ()⟩, none), s)
  waitTx := fun _ s =>
    if s.confirmationFails then ((false, some ⟨"transaction failed"⟩), s) else ((true, none), s)

/-- A deal with two mediators. -/
def deal : web3.Deal Unit Nat Nat Unit :=
  { ID := "d1", Members := ⟨["0xm1", "0xm2"], ()⟩, Timeouts := 60, Pricing := 5, Rest := () }

/-- A ledger with one registered solver, accepting submissions. -/
def ledger (confirmationFails : Bool) : Ledger :=
  { submitted := [], users := [⟨"0xs1", "http://solver", ()⟩], rejectSubmission := false,
    confirmationFails := confirmationFails }

/-- The world before `Agree` when the confirmation will succeed. -/
def chainOk : World Ledger (web3.Call String String Unit Unit (List String) Nat Nat) :=
  { state := ledger false, trace := [] }

/-- The world before `Agree` when the confirmation will fail. -/
def chainFailing : World Ledger (web3.Call String String Unit Unit (List String) Nat Nat) :=
  { state := ledger true, trace := [] }

/-- The world before `Agree` when the ledger rejects the submission. -/
def chainRejecting : World Ledger (web3.Call String String Unit Unit (List String) Nat Nat) :=
  { state := { ledger false with rejectSubmission := true }, trace := [] }

end demo

namespace solver

variable {σ ρJ ρR : Type}

/-- C1: a POST /job_offers request whose header yields a signer and whose body decodes
to an offer declaring another creator is answered with an error and no offer, and the
controller is not called: the world (state and trace of calls) is left as it was. -/
theorem addJobOffer_rejects_foreign_signer (srv : solverServer σ ρJ ρR)
    (http : HttpHelpers ρJ ρR) (req : Request) (w : World σ (Call ρJ ρR))
    (hSigner : (http.GetAddressFromHeaders req).2 = none)
    (hBody : (http.ReadBodyJobOffer req).2 = none)
    (hNe : (http.GetAddressFromHeaders req).1 ≠ (http.ReadBodyJobOffer req).1.JobCreator) :
    (∃ err, (srv.addJobOffer http req w).1 = (none, some err)) ∧
      (srv.addJobOffer http req w).2 = w := by
  rcases hA : http.GetAddressFromHeaders req with ⟨signer, e1⟩
  rcases hB : http.ReadBodyJobOffer req with ⟨offer, e2⟩
  simp only [hA, hB] at hSigner hBody hNe
  subst hSigner hBody
  simp [solverServer.addJobOffer, hA, hB, hNe]

/-- Witness of C1: the request signed by alice that declares carol as creator. -/
theorem addJobOffer_rejects_foreign_signer_witness :
    (demo.http.GetAddressFromHeaders demo.reqAliceAsCarol).2 = none ∧
    (demo.http.ReadBodyJobOffer demo.reqAliceAsCarol).2 = none ∧
    ((∃ err, (demo.server.addJobOffer demo.http demo.reqAliceAsCarol demo.world).1
        = (none, some err)) ∧
      (demo.server.addJobOffer demo.http demo.reqAliceAsCarol demo.world).2 = demo.world) :=
  ⟨by decide, by decide,
    addJobOffer_rejects_foreign_signer demo.server demo.http demo.reqAliceAsCarol demo.world
      (by decide) (by decide) (by decide)⟩

/-- C2: a POST /resource_offers request whose header yields a signer and whose body
decodes to an offer declaring another provider is answered with an error and no offer,
and the controller is not called: the world (state and trace of calls) is left as it
was. -/
theorem addResourceOffer_rejects_foreign_signer (srv : solverServer σ ρJ ρR)
    (http : HttpHelpers ρJ ρR) (req : Request) (w : World σ (Call ρJ ρR))
    (hSigner : (http.GetAddressFromHeaders req).2 = none)
    (hBody : (http.ReadBodyResourceOffer req).2 = none)
    (hNe : (http.GetAddressFromHeaders req).1
        ≠ (http.ReadBodyResourceOffer req).1.ResourceProvider) :
    (∃ err, (srv.addResourceOffer http req w).1 = (none, some err)) ∧
      (srv.addResourceOffer http req w).2 = w := by
  rcases hA : http.GetAddressFromHeaders req with ⟨signer, e1⟩
  rcases hB : http.ReadBodyResourceOffer req with ⟨offer, e2⟩
  simp only [hA, hB] at hSigner hBody hNe
  subst hSigner hBody
  simp [solverServer.addResourceOffer, hA, hB, hNe]

/-- Witness of C2: the request signed by alice that declares carol as provider. -/
theorem addResourceOffer_rejects_foreign_signer_witness :
    (demo.http.GetAddressFromHeaders demo.reqAliceAsCarol).2 = none ∧
    (demo.http.ReadBodyResourceOffer demo.reqAliceAsCarol).2 = none ∧
    ((∃ err, (demo.server.addResourceOffer demo.http demo.reqAliceAsCarol demo.world).1
        = (none, some err)) ∧
      (demo.server.addResourceOffer demo.http demo.reqAliceAsCarol demo.world).2
        = demo.world) :=
  ⟨by decide, by decide,
    addResourceOffer_rejects_foreign_signer demo.server demo.http demo.reqAliceAsCarol
      demo.world (by decide) (by decide) (by decide)⟩

/-- C3: when the header yields a signer, the body decodes and the signer equals the
declared owner, addJobOffer (and likewise addResourceOffer) calls the controller exactly
once, on the decoded offer, and returns the result and the state of that call; in every
other case it returns an error with no offer and calls nothing. -/
theorem intake_calls_controller_once_iff_authorised (srv : solverServer σ ρJ ρR)
    (http : HttpHelpers ρJ ρR) (req : Request) (w : World σ (Call ρJ ρR)) :
    (((http.GetAddressFromHeaders req).2 = none ∧ (http.ReadBodyJobOffer req).2 = none ∧
        (http.GetAddressFromHeaders req).1 = (http.ReadBodyJobOffer req).1.JobCreator) →
      (srv.addJobOffer http req w).1
          = (srv.controller.addJobOffer (http.ReadBodyJobOffer req).1 w.state).1 ∧
        (srv.addJobOffer http req w).2.state
          = (srv.controller.addJobOffer (http.ReadBodyJobOffer req).1 w.state).2 ∧
        (srv.addJobOffer http req w).2.trace
          = w.trace ++ [Call.controller_addJobOffer (http.ReadBodyJobOffer req).1]) ∧
    (¬ ((http.GetAddressFromHeaders req).2 = none ∧ (http.ReadBodyJobOffer req).2 = none ∧
        (http.GetAddressFromHeaders req).1 = (http.ReadBodyJobOffer req).1.JobCreator) →
      (∃ err, (srv.addJobOffer http req w).1 = (none, some err)) ∧
        (srv.addJobOffer http req w).2 = w) ∧
    (((http.GetAddressFromHeaders req).2 = none ∧ (http.ReadBodyResourceOffer req).2 = none ∧
        (http.GetAddressFromHeaders req).1
          = (http.ReadBodyResourceOffer req).1.ResourceProvider) →
      (srv.addResourceOffer http req w).1
          = (srv.controller.addResourceOffer (http.ReadBodyResourceOffer req).1 w.state).1 ∧
        (srv.addResourceOffer http req w).2.state
          = (srv.controller.addResourceOffer (http.ReadBodyResourceOffer req).1 w.state).2 ∧
        (srv.addResourceOffer http req w).2.trace
          = w.trace ++ [Call.controller_addResourceOffer (http.ReadBodyResourceOffer req).1]) ∧
    (¬ ((http.GetAddressFromHeaders req).2 = none ∧ (http.ReadBodyResourceOffer req).2 = none ∧
        (http.GetAddressFromHeaders req).1
          = (http.ReadBodyResourceOffer req).1.ResourceProvider) →
      (∃ err, (srv.addResourceOffer http req w).1 = (none, some err)) ∧
        (srv.addResourceOffer http req w).2 = w) := by
  rcases hA : http.GetAddressFromHeaders req with ⟨signer, e1⟩
  rcases hB : http.ReadBodyJobOffer req with ⟨jobOffer, e2⟩
  rcases hC : http.ReadBodyResourceOffer req with ⟨resourceOffer, e3⟩
  refine ⟨?_, ?_, ?_, ?_⟩
  · rintro ⟨h1, h2, h3⟩
    simp only at h1 h2 h3
    subst h1 h2 h3
    simp [solverServer.addJobOffer, hA, hB, call_controller_addJobOffer]
  · intro h
    cases e1 with
    | some err => simp [solverServer.addJobOffer, hA]
    | none =>
      cases e2 with
      | some err => simp [solverServer.addJobOffer, hA, hB]
      | none =>
        have hne : signer ≠ jobOffer.JobCreator := fun hEq => h ⟨rfl, rfl, hEq⟩
        simp [solverServer.addJobOffer, hA, hB, hne]
  · rintro ⟨h1, h2, h3⟩
    simp only at h1 h2 h3
    subst h1 h2 h3
    simp [solverServer.addResourceOffer, hA, hC, call_controller_addResourceOffer]
  · intro h
    cases e1 with
    | some err => simp [solverServer.addResourceOffer, hA]
    | none =>
      cases e3 with
      | some err => simp [solverServer.addResourceOffer, hA, hC]
      | none =>
        have hne : signer ≠ resourceOffer.ResourceProvider := fun hEq => h ⟨rfl, rfl, hEq⟩
        simp [solverServer.addResourceOffer, hA, hC, hne]

/-- Witness of C3: alice posting her own job offer reaches the controller once; alice
posting an offer that declares carol does not reach it. -/
theorem intake_calls_controller_once_iff_authorised_witness :
    ((demo.server.addJobOffer demo.http demo.reqAlice demo.world).1
        = (demo.server.controller.addJobOffer
            (demo.http.ReadBodyJobOffer demo.reqAlice).1 demo.world.state).1 ∧
      (demo.server.addJobOffer demo.http demo.reqAlice demo.world).2.state
        = (demo.server.controller.addJobOffer
            (demo.http.ReadBodyJobOffer demo.reqAlice).1 demo.world.state).2 ∧
      (demo.server.addJobOffer demo.http demo.reqAlice demo.world).2.trace
        = demo.world.trace
            ++ [Call.controller_addJobOffer (demo.http.ReadBodyJobOffer demo.reqAlice).1]) ∧
    ((∃ err, (demo.server.addResourceOffer demo.http demo.reqAliceAsCarol demo.world).1
        = (none, some err)) ∧
      (demo.server.addResourceOffer demo.http demo.reqAliceAsCarol demo.world).2
        = demo.world) :=
  ⟨(intake_calls_controller_once_iff_authorised demo.server demo.http demo.reqAlice
      demo.world).1 ⟨by decide, by decide, by decide⟩,
   (intake_calls_controller_once_iff_authorised demo.server demo.http demo.reqAliceAsCarol
      demo.world).2.2.2 (by decide)⟩

/-- C8: getJobOffers makes exactly one call, the store read GetJobOffers, with a query
whose JobCreator is the value of the parameter job_creator (the zero query when the
parameter is absent or empty), and returns the result and the state of that read;
getResourceOffers does the same with resource_provider and GetResourceOffers. -/
theorem getOffers_single_store_read (srv : solverServer σ ρJ ρR) (req : Request)
    (w : World σ (Call ρJ ρR)) :
    (∃ query : GetJobOffersQuery,
      query.JobCreator = req.URLQuery.Get "job_creator" ∧
      ((req.URLQuery.lookup "job_creator" = none ∨ req.URLQuery.Get "job_creator" = "") →
        query = {}) ∧
      (srv.getJobOffers req w).1 = (srv.store.GetJobOffers query w.state).1 ∧
      (srv.getJobOffers req w).2.state = (srv.store.GetJobOffers query w.state).2 ∧
      (srv.getJobOffers req w).2.trace = w.trace ++ [Call.store_GetJobOffers query]) ∧
    (∃ query : GetResourceOffersQuery,
      query.ResourceProvider = req.URLQuery.Get "resource_provider" ∧
      ((req.URLQuery.lookup "resource_provider" = none
          ∨ req.URLQuery.Get "resource_provider" = "") → query = {}) ∧
      (srv.getResourceOffers req w).1 = (srv.store.GetResourceOffers query w.state).1 ∧
      (srv.getResourceOffers req w).2.state = (srv.store.GetResourceOffers query w.state).2 ∧
      (srv.getResourceOffers req w).2.trace
        = w.trace ++ [Call.store_GetResourceOffers query]) := by
  constructor
  · refine ⟨⟨req.URLQuery.Get "job_creator"⟩, rfl, ?_, ?_⟩
    · rintro (h | h)
      · simp [Values.Get, h]
      · simp [h]
    · by_cases h : req.URLQuery.Get "job_creator" = ""
      · simp [solverServer.getJobOffers, call_store_GetJobOffers, h]
      · simp [solverServer.getJobOffers, call_store_GetJobOffers, h]
  · refine ⟨⟨req.URLQuery.Get "resource_provider"⟩, rfl, ?_, ?_⟩
    · rintro (h | h)
      · simp [Values.Get, h]
      · simp [h]
    · by_cases h : req.URLQuery.Get "resource_provider" = ""
      · simp [solverServer.getResourceOffers, call_store_GetResourceOffers, h]
      · simp [solverServer.getResourceOffers, call_store_GetResourceOffers, h]

/-- Witness of C8: the listing filtered on alice reads the store once with the query
for alice, and the unfiltered listing reads it once with the zero query. -/
theorem getOffers_single_store_read_witness :
    (demo.server.getJobOffers demo.reqListAlice demo.world).2.trace
        = [Call.store_GetJobOffers { JobCreator := "alice" }] ∧
      (demo.server.getJobOffers demo.reqListAll demo.world).2.trace
        = [Call.store_GetJobOffers {}] ∧
      (demo.server.getResourceOffers demo.reqListAll demo.world).2.trace
        = [Call.store_GetResourceOffers {}] := by
  obtain ⟨q1, h1, _, _, _, t1⟩ :=
    (getOffers_single_store_read demo.server demo.reqListAlice demo.world).1
  obtain ⟨q2, _, z2, _, _, t2⟩ :=
    (getOffers_single_store_read demo.server demo.reqListAll demo.world).1
  obtain ⟨q3, _, z3, _, _, t3⟩ :=
    (getOffers_single_store_read demo.server demo.reqListAll demo.world).2
  have e1 : q1 = { JobCreator := "alice" } := by
    cases q1
    simpa using h1
  have e2 : q2 = {} := z2 (Or.inl (by decide))
  have e3 : q3 = {} := z3 (Or.inl (by decide))
  subst e1 e2 e3
  exact ⟨t1, t2, t3⟩

/-- Once the goroutine has returned, scheduling it again changes nothing. -/
theorem forward_of_returned {Ev : Type} (Marshal : Ev → List Nat × Option GoError)
    (Sprint : Ev → String) (pickDone : Bool) (s : Forwarder Ev) (h : s.returned = true) :
    ListenAndServe_forward Marshal Sprint pickDone s = s := by
  simp [ListenAndServe_forward, h]

/-- Once the goroutine has returned, any number of further schedulings changes nothing. -/
theorem forward_run_of_returned {Ev : Type} (Marshal : Ev → List Nat × Option GoError)
    (Sprint : Ev → String) (pickDone : Bool) (n : Nat) (s : Forwarder Ev)
    (h : s.returned = true) :
    ListenAndServe_forward_run Marshal Sprint pickDone n s = s := by
  induction n with
  | zero => rfl
  | succ k ih =>
    unfold ListenAndServe_forward_run at ih ⊢
    rw [Function.iterate_succ_apply, forward_of_returned Marshal Sprint pickDone s h]
    exact ih

/-- The goroutine receiving an event: the state it returns in. -/
theorem forward_of_event {Ev : Type} (Marshal : Ev → List Nat × Option GoError)
    (Sprint : Ev → String) (pickDone : Bool) (s : Forwarder Ev) (ev : Ev) (rest : List Ev)
    (hRun : s.returned = false) (hChan : s.eventChannel = ev :: rest)
    (hSel : s.ctxDone = false ∨ pickDone = false) :
    ListenAndServe_forward Marshal Sprint pickDone s =
      { eventChannel := rest, ctxDone := s.ctxDone,
        websocketEventChannel := s.websocketEventChannel ++ [(Marshal ev).1],
        stdout := s.stdout ++ ["got controller event: " ++ Sprint ev ++ "\n"],
        errorLog :=
          match (Marshal ev).2 with
          | some err => s.errorLog ++ ["Error marshalling event: " ++ err.msg]
          | none => s.errorLog,
        returned := true } := by
  have hsel : selectCase s pickDone = some (SelectCase.recvEvent ev) := by
    rcases hSel with h | h
    · simp [selectCase, hChan, h]
    · cases hd : s.ctxDone <;> simp [selectCase, hChan, h, hd]
  rcases hM : Marshal ev with ⟨evBytes, err⟩
  cases err <;> simp [ListenAndServe_forward, hRun, hsel, hChan, hM]

/-- C10: when the goroutine receives the first controller event it sends exactly one
message on the websocket channel, the bytes returned by the encoder, whether or not the
encoding succeeded; a failed encoding adds one line to the error log and does not stop
the send.  Scheduling the goroutine more often sends nothing more. -/
theorem forward_first_event_sends_one_message {Ev : Type}
    (Marshal : Ev → List Nat × Option GoError) (Sprint : Ev → String) (pickDone : Bool)
    (s : Forwarder Ev) (ev : Ev) (rest : List Ev) (n : Nat)
    (hRun : s.returned = false) (hChan : s.eventChannel = ev :: rest)
    (hSel : s.ctxDone = false ∨ pickDone = false) :
    (ListenAndServe_forward_run Marshal Sprint pickDone (n + 1) s).websocketEventChannel
        = s.websocketEventChannel ++ [(Marshal ev).1] ∧
      (∀ err, (Marshal ev).2 = some err →
        (ListenAndServe_forward_run Marshal Sprint pickDone (n + 1) s).errorLog
          = s.errorLog ++ ["Error marshalling event: " ++ err.msg]) ∧
      ((Marshal ev).2 = none →
        (ListenAndServe_forward_run Marshal Sprint pickDone (n + 1) s).errorLog
          = s.errorLog) := by
  have hstep := forward_of_event Marshal Sprint pickDone s ev rest hRun hChan hSel
  have hrun : ListenAndServe_forward_run Marshal Sprint pickDone (n + 1) s
      = ListenAndServe_forward Marshal Sprint pickDone s := by
    unfold ListenAndServe_forward_run
    rw [Function.iterate_succ_apply]
    exact forward_run_of_returned Marshal Sprint pickDone n _ (by rw [hstep])
  rw [hrun, hstep]
  refine ⟨rfl, ?_, ?_⟩
  · intro err h
    simp [h]
  · intro h
    simp [h]

/-- Witness of C10: the encoder fails on the event 0, which is the first of two events;
one message (the empty byte string the encoder returned) is sent and one error line is
logged. -/
theorem forward_first_event_sends_one_message_witness :
    (ListenAndServe_forward_run demo.Marshal demo.Sprint false 3
        (Forwarder.start [0, 5])).websocketEventChannel = [[]] ∧
      (ListenAndServe_forward_run demo.Marshal demo.Sprint false 3
        (Forwarder.start [0, 5])).errorLog
          = ["Error marshalling event: json: unsupported value"] := by
  have h := forward_first_event_sends_one_message demo.Marshal demo.Sprint false
    (Forwarder.start [0, 5]) 0 [5] 2 rfl rfl (Or.inl rfl)
  exact ⟨h.1, h.2.1 ⟨"json: unsupported value"⟩ rfl⟩

/-- C4 (evaluation of the code): with two events emitted before shutdown and the
goroutine scheduled any number of times, only the encoding of the first event is ever
sent on the websocket channel; the second event stays unread on the event channel. -/
theorem forward_two_events_sends_only_first {Ev : Type}
    (Marshal : Ev → List Nat × Option GoError) (Sprint : Ev → String) (pickDone : Bool)
    (e1 e2 : Ev) (n : Nat) :
    (ListenAndServe_forward_run Marshal Sprint pickDone (n + 1)
        (Forwarder.start [e1, e2])).websocketEventChannel = [(Marshal e1).1] ∧
      (ListenAndServe_forward_run Marshal Sprint pickDone (n + 1)
        (Forwarder.start [e1, e2])).eventChannel = [e2] ∧
      (ListenAndServe_forward_run Marshal Sprint pickDone (n + 1)
        (Forwarder.start [e1, e2])).websocketEventChannel
          ≠ [e1, e2].map (fun ev => (Marshal ev).1) := by
  have hstep := forward_of_event Marshal Sprint pickDone (Forwarder.start [e1, e2]) e1 [e2]
    rfl rfl (Or.inl rfl)
  have hrun : ListenAndServe_forward_run Marshal Sprint pickDone (n + 1)
      (Forwarder.start [e1, e2])
      = ListenAndServe_forward Marshal Sprint pickDone (Forwarder.start [e1, e2]) := by
    unfold ListenAndServe_forward_run
    rw [Function.iterate_succ_apply]
    exact forward_run_of_returned Marshal Sprint pickDone n _ (by rw [hstep])
  rw [hrun, hstep]
  simp [Forwarder.start]

end solver

namespace web3

variable {σ Addr Tx Rcpt TOpts COpts ρU CM CT CP μ τ π δ : Type}

/-- C9: GetSolverUrl returns the error of the user lookup when the lookup fails;
otherwise it returns the error "no solver found" with an empty URL exactly when the
UserAddress of the user found is the zero address HexToAddress("0x0"), and the Url of
that user with no error in every remaining case. -/
theorem GetSolverUrl_cases [DecidableEq Addr]
    (sdk : Web3SDK σ Addr Tx Rcpt TOpts COpts ρU CM CT CP)
    (pkg : Pkg Addr Tx μ τ π CM CT CP) (address : String)
    (w : World σ (Call Addr Tx TOpts COpts CM CT CP)) :
    (∀ err,
      (sdk.Contracts_Users_GetUser sdk.CallOpts (pkg.HexToAddress address) w.state).1.2
          = some err →
        (sdk.GetSolverUrl pkg address w).1 = ("", some err)) ∧
    ((sdk.Contracts_Users_GetUser sdk.CallOpts (pkg.HexToAddress address) w.state).1.2 = none →
      ((sdk.GetSolverUrl pkg address w).1
            = ("", some (fmt_Errorf ("no solver found for address: " ++ address))) ↔
          (sdk.Contracts_Users_GetUser sdk.CallOpts (pkg.HexToAddress address)
              w.state).1.1.UserAddress = pkg.HexToAddress "0x0") ∧
        ((sdk.Contracts_Users_GetUser sdk.CallOpts (pkg.HexToAddress address)
              w.state).1.1.UserAddress ≠ pkg.HexToAddress "0x0" →
          (sdk.GetSolverUrl pkg address w).1
            = ((sdk.Contracts_Users_GetUser sdk.CallOpts (pkg.HexToAddress address)
                w.state).1.1.Url, none))) := by
  rcases hU : sdk.Contracts_Users_GetUser sdk.CallOpts (pkg.HexToAddress address) w.state
    with ⟨⟨solver, e⟩, s1⟩
  constructor
  · intro err h
    simp only at h
    subst h
    simp [Web3SDK.GetSolverUrl, call_Users_GetUser, hU]
  · intro h
    simp only at h
    subst h
    by_cases hz : solver.UserAddress = pkg.HexToAddress "0x0"
    · simp [Web3SDK.GetSolverUrl, call_Users_GetUser, hU, hz]
    · simp [Web3SDK.GetSolverUrl, call_Users_GetUser, hU, hz]

/-- Witness of C9: the registered solver is found, an unknown address is not. -/
theorem GetSolverUrl_cases_witness :
    (demo.sdk.GetSolverUrl demo.pkg "0xs1" demo.chainOk).1 = ("http://solver", none) ∧
      (demo.sdk.GetSolverUrl demo.pkg "0xs2" demo.chainOk).1
        = ("", some (fmt_Errorf "no solver found for address: 0xs2")) :=
  ⟨((GetSolverUrl_cases demo.sdk demo.pkg "0xs1" demo.chainOk).2 (by decide)).2 (by decide),
   ((GetSolverUrl_cases demo.sdk demo.pkg "0xs2" demo.chainOk).2 (by decide)).1.mpr
      (by decide)⟩

/-- C5 (refutation at a concrete input): the ledger accepts the submission of the agree
transaction of the deal, and yet Agree returns the error of the confirmation wait with
an empty reference, not the hash; with the same accepted submission and a successful
wait it returns the hash, so its result depends on the outcome of waitTx. -/
theorem Agree_result_depends_on_waitTx :
    (demo.sdk.Contracts_Controller_Agree demo.sdk.TransactOpts demo.deal.ID
        (demo.pkg.ConvertDealMembers demo.deal.Members)
        (demo.pkg.ConvertDealTimeouts demo.deal.Timeouts)
        (demo.pkg.ConvertDealPricing demo.deal.Pricing) demo.chainFailing.state).1
      = ("0xd1", none) ∧
    (demo.sdk.Agree demo.pkg demo.deal demo.chainFailing).1
      = ("", some ⟨"transaction failed"⟩) ∧
    (demo.sdk.Agree demo.pkg demo.deal demo.chainFailing).1
      ≠ (demo.pkg.TxHashString "0xd1", none) ∧
    (demo.sdk.Agree demo.pkg demo.deal demo.chainOk).1
      = (demo.pkg.TxHashString "0xd1", none) := by
  decide

/-- C5 (amended): when the ledger accepts the submission of the agree transaction,
Agree logs the submission and then waits for the confirmation of that transaction
(one call of waitTx on it); it returns the hash of the transaction with no error when
the wait succeeds, and the error of the wait with an empty reference when it fails. -/
theorem Agree_of_accepted_submission
    (sdk : Web3SDK σ Addr Tx Rcpt TOpts COpts ρU CM CT CP)
    (pkg : Pkg Addr Tx μ τ π CM CT CP) (deal : Deal μ τ π δ)
    (w : World σ (Call Addr Tx TOpts COpts CM CT CP)) (tx : Tx) (s1 : σ)
    (hSubmit : sdk.Contracts_Controller_Agree sdk.TransactOpts deal.ID
        (pkg.ConvertDealMembers deal.Members) (pkg.ConvertDealTimeouts deal.Timeouts)
        (pkg.ConvertDealPricing deal.Pricing) w.state = ((tx, none), s1)) :
    (sdk.Agree pkg deal w).2.trace
        = w.trace ++
          [Call.Controller_Agree sdk.TransactOpts deal.ID
              (pkg.ConvertDealMembers deal.Members) (pkg.ConvertDealTimeouts deal.Timeouts)
              (pkg.ConvertDealPricing deal.Pricing),
            Call.system_Info sdk.Service "submitted agree tx" tx,
            Call.waitTx tx] ∧
      (sdk.Agree pkg deal w).2.state = (sdk.waitTx tx s1).2 ∧
      ((sdk.waitTx tx s1).1.2 = none →
        (sdk.Agree pkg deal w).1 = (pkg.TxHashString tx, none)) ∧
      (∀ err, (sdk.waitTx tx s1).1.2 = some err →
        (sdk.Agree pkg deal w).1 = ("", some err)) := by
  rcases hW : sdk.waitTx tx s1 with ⟨⟨rcpt, e⟩, s2⟩
  cases e with
  | none =>
    simp [Web3SDK.Agree, call_Controller_Agree, call_system_Info, call_waitTx, hSubmit, hW]
  | some err =>
    simp [Web3SDK.Agree, call_Controller_Agree, call_system_Info, call_waitTx, hSubmit, hW]

/-- Witness of C5 (amended): the accepted submission followed by a failing wait. -/
theorem Agree_of_accepted_submission_witness :
    (demo.sdk.Agree demo.pkg demo.deal demo.chainFailing).2.trace
        = [Call.Controller_Agree () "d1" ["0xm1", "0xm2"] 60 5,
            Call.system_Info "solver" "submitted agree tx" "0xd1",
            Call.waitTx "0xd1"] ∧
      (demo.sdk.Agree demo.pkg demo.deal demo.chainFailing).1
        = ("", some ⟨"transaction failed"⟩) := by
  have h := Agree_of_accepted_submission demo.sdk demo.pkg demo.deal demo.chainFailing
    "0xd1" { demo.ledger true with submitted := ["d1"] } (by decide)
  exact ⟨h.1, h.2.2.2 ⟨"transaction failed"⟩ (by decide)⟩

/-- C6: when the submission of the agree transaction fails, Agree returns that same
error with an empty reference; it logs the error and makes no other call, in
particular no confirmation wait. -/
theorem Agree_of_failed_submission
    (sdk : Web3SDK σ Addr Tx Rcpt TOpts COpts ρU CM CT CP)
    (pkg : Pkg Addr Tx μ τ π CM CT CP) (deal : Deal μ τ π δ)
    (w : World σ (Call Addr Tx TOpts COpts CM CT CP)) (err : GoError)
    (hSubmit : (sdk.Contracts_Controller_Agree sdk.TransactOpts deal.ID
        (pkg.ConvertDealMembers deal.Members) (pkg.ConvertDealTimeouts deal.Timeouts)
        (pkg.ConvertDealPricing deal.Pricing) w.state).1.2 = some err) :
    (sdk.Agree pkg deal w).1 = ("", some err) ∧
      ∃ calls, (sdk.Agree pkg deal w).2.trace = w.trace ++ calls ∧
        calls =
          [Call.Controller_Agree sdk.TransactOpts deal.ID
              (pkg.ConvertDealMembers deal.Members) (pkg.ConvertDealTimeouts deal.Timeouts)
              (pkg.ConvertDealPricing deal.Pricing),
            Call.system_Error sdk.Service "error submitting agree tx" err] ∧
        calls.filter Call.isWaitTx = [] := by
  rcases hS : sdk.Contracts_Controller_Agree sdk.TransactOpts deal.ID
      (pkg.ConvertDealMembers deal.Members) (pkg.ConvertDealTimeouts deal.Timeouts)
      (pkg.ConvertDealPricing deal.Pricing) w.state with ⟨⟨tx, e⟩, s1⟩
  rw [hS] at hSubmit
  simp only at hSubmit
  subst hSubmit
  refine ⟨?_, _, ?_, rfl, ?_⟩
  · simp [Web3SDK.Agree, call_Controller_Agree, call_system_Error, hS]
  · simp [Web3SDK.Agree, call_Controller_Agree, call_system_Error, hS]
  · simp [Call.isWaitTx]

/-- Witness of C6: the ledger that rejects the submission. -/
theorem Agree_of_failed_submission_witness :
    (demo.sdk.Agree demo.pkg demo.deal demo.chainRejecting).1
      = ("", some ⟨"execution reverted"⟩) :=
  (Agree_of_failed_submission demo.sdk demo.pkg demo.deal demo.chainRejecting
    ⟨"execution reverted"⟩ (by decide)).1

/-- C7: the first call made by Agree submits an agree transaction and no other call
does; its arguments are the ID of the deal and the members, timeouts and pricing of the
deal converted by ConvertDealMembers, ConvertDealTimeouts and ConvertDealPricing, and
it runs on the ledger state Agree was entered with.  The ledger state Agree leaves is
the one that submission produced, followed by the confirmation wait on the submitted
transaction when the submission was accepted.  Agree reports no error exactly when the
submission was accepted and the wait succeeded; the reference is then the hash of the
transaction that this submission returned, and it is empty in every other case. -/
theorem Agree_submits_one_transaction
    (sdk : Web3SDK σ Addr Tx Rcpt TOpts COpts ρU CM CT CP)
    (pkg : Pkg Addr Tx μ τ π CM CT CP) (deal : Deal μ τ π δ)
    (w : World σ (Call Addr Tx TOpts COpts CM CT CP)) :
    (∃ calls, (sdk.Agree pkg deal w).2.trace = w.trace ++ calls ∧
      calls.head? = some
        (Call.Controller_Agree sdk.TransactOpts deal.ID
          (pkg.ConvertDealMembers deal.Members) (pkg.ConvertDealTimeouts deal.Timeouts)
          (pkg.ConvertDealPricing deal.Pricing)) ∧
      calls.filter Call.isAgree =
        [Call.Controller_Agree sdk.TransactOpts deal.ID
          (pkg.ConvertDealMembers deal.Members) (pkg.ConvertDealTimeouts deal.Timeouts)
          (pkg.ConvertDealPricing deal.Pricing)]) ∧
    (∀ err,
      (sdk.Contracts_Controller_Agree sdk.TransactOpts deal.ID
          (pkg.ConvertDealMembers deal.Members) (pkg.ConvertDealTimeouts deal.Timeouts)
          (pkg.ConvertDealPricing deal.Pricing) w.state).1.2 = some err →
        (sdk.Agree pkg deal w).2.state =
          (sdk.Contracts_Controller_Agree sdk.TransactOpts deal.ID
          (pkg.ConvertDealMembers deal.Members) (pkg.ConvertDealTimeouts deal.Timeouts)
          (pkg.ConvertDealPricing deal.Pricing) w.state).2) ∧
    ((sdk.Contracts_Controller_Agree sdk.TransactOpts deal.ID
          (pkg.ConvertDealMembers deal.Members) (pkg.ConvertDealTimeouts deal.Timeouts)
          (pkg.ConvertDealPricing deal.Pricing) w.state).1.2 = none →
        (sdk.Agree pkg deal w).2.state =
          (sdk.waitTx
            (sdk.Contracts_Controller_Agree sdk.TransactOpts deal.ID
          (pkg.ConvertDealMembers deal.Members) (pkg.ConvertDealTimeouts deal.Timeouts)
          (pkg.ConvertDealPricing deal.Pricing) w.state).1.1
            (sdk.Contracts_Controller_Agree sdk.TransactOpts deal.ID
          (pkg.ConvertDealMembers deal.Members) (pkg.ConvertDealTimeouts deal.Timeouts)
          (pkg.ConvertDealPricing deal.Pricing) w.state).2).2) ∧
    ((sdk.Agree pkg deal w).1.2 = none ↔
      ((sdk.Contracts_Controller_Agree sdk.TransactOpts deal.ID
          (pkg.ConvertDealMembers deal.Members) (pkg.ConvertDealTimeouts deal.Timeouts)
          (pkg.ConvertDealPricing deal.Pricing) w.state).1.2 = none ∧
        (sdk.waitTx
            (sdk.Contracts_Controller_Agree sdk.TransactOpts deal.ID
          (pkg.ConvertDealMembers deal.Members) (pkg.ConvertDealTimeouts deal.Timeouts)
          (pkg.ConvertDealPricing deal.Pricing) w.state).1.1
            (sdk.Contracts_Controller_Agree sdk.TransactOpts deal.ID
          (pkg.ConvertDealMembers deal.Members) (pkg.ConvertDealTimeouts deal.Timeouts)
          (pkg.ConvertDealPricing deal.Pricing) w.state).2).1.2 = none)) ∧
    ((sdk.Agree pkg deal w).1.2 = none →
      (sdk.Agree pkg deal w).1.1 =
        pkg.TxHashString
          (sdk.Contracts_Controller_Agree sdk.TransactOpts deal.ID
          (pkg.ConvertDealMembers deal.Members) (pkg.ConvertDealTimeouts deal.Timeouts)
          (pkg.ConvertDealPricing deal.Pricing) w.state).1.1) ∧
    ((sdk.Agree pkg deal w).1.2 ≠ none → (sdk.Agree pkg deal w).1.1 = "") := by
  rcases hS : sdk.Contracts_Controller_Agree sdk.TransactOpts deal.ID
      (pkg.ConvertDealMembers deal.Members) (pkg.ConvertDealTimeouts deal.Timeouts)
      (pkg.ConvertDealPricing deal.Pricing) w.state with ⟨⟨tx, e⟩, s1⟩
  cases e with
  | some err =>
    refine ⟨⟨[Call.Controller_Agree sdk.TransactOpts deal.ID
          (pkg.ConvertDealMembers deal.Members) (pkg.ConvertDealTimeouts deal.Timeouts)
          (pkg.ConvertDealPricing deal.Pricing),
      Call.system_Error sdk.Service "error submitting agree tx" err], ?_, ?_, ?_⟩,
      ?_, ?_, ?_, ?_, ?_⟩
    · simp [Web3SDK.Agree, call_Controller_Agree, call_system_Error, hS]
    · simp
    · simp [Call.isAgree]
    all_goals simp [Web3SDK.Agree, call_Controller_Agree, call_system_Error, hS]
  | none =>
    rcases hW : sdk.waitTx tx s1 with ⟨⟨rcpt, e2⟩, s2⟩
    cases e2 with
    | some err =>
      refine ⟨⟨[Call.Controller_Agree sdk.TransactOpts deal.ID
          (pkg.ConvertDealMembers deal.Members) (pkg.ConvertDealTimeouts deal.Timeouts)
          (pkg.ConvertDealPricing deal.Pricing),
        Call.system_Info sdk.Service "submitted agree tx" tx, Call.waitTx tx], ?_, ?_, ?_⟩,
        ?_, ?_, ?_, ?_, ?_⟩
      · simp [Web3SDK.Agree, call_Controller_Agree, call_system_Info, call_waitTx, hS, hW]
      · simp
      · simp [Call.isAgree]
      all_goals
        simp [Web3SDK.Agree, call_Controller_Agree, call_system_Info, call_waitTx, hS, hW]
    | none =>
      refine ⟨⟨[Call.Controller_Agree sdk.TransactOpts deal.ID
          (pkg.ConvertDealMembers deal.Members) (pkg.ConvertDealTimeouts deal.Timeouts)
          (pkg.ConvertDealPricing deal.Pricing),
        Call.system_Info sdk.Service "submitted agree tx" tx, Call.waitTx tx], ?_, ?_, ?_⟩,
        ?_, ?_, ?_, ?_, ?_⟩
      · simp [Web3SDK.Agree, call_Controller_Agree, call_system_Info, call_waitTx, hS, hW]
      · simp
      · simp [Call.isAgree]
      all_goals
        simp [Web3SDK.Agree, call_Controller_Agree, call_system_Info, call_waitTx, hS, hW]

/-- Witness of C7: the deal d1 on the ledger that confirms it is recorded as submitted
and its hash is returned; on the ledger that rejects the submission nothing is recorded
and an error is reported. -/
theorem Agree_submits_one_transaction_witness :
    ((demo.sdk.Agree demo.pkg demo.deal demo.chainOk).2.state.submitted = ["d1"] ∧
      (demo.sdk.Agree demo.pkg demo.deal demo.chainOk).1.2 = none ∧
      (demo.sdk.Agree demo.pkg demo.deal demo.chainOk).1.1 = "0xd1") ∧
    ((demo.sdk.Agree demo.pkg demo.deal demo.chainRejecting).2.state.submitted = [] ∧
      (demo.sdk.Agree demo.pkg demo.deal demo.chainRejecting).1.2 ≠ none ∧
      (demo.sdk.Agree demo.pkg demo.deal demo.chainRejecting).1.1 = "") := by
  have hOk := Agree_submits_one_transaction demo.sdk demo.pkg demo.deal demo.chainOk
  have hRej := Agree_submits_one_transaction demo.sdk demo.pkg demo.deal demo.chainRejecting
  have okNone : (demo.sdk.Agree demo.pkg demo.deal demo.chainOk).1.2 = none :=
    hOk.2.2.2.1.mpr ⟨by decide, by decide⟩
  have rejErr : (demo.sdk.Agree demo.pkg demo.deal demo.chainRejecting).1.2 ≠ none :=
    fun h => absurd (hRej.2.2.2.1.mp h).1 (by decide)
  refine ⟨⟨?_, okNone, ?_⟩, ?_, rejErr, hRej.2.2.2.2.2 rejErr⟩
  · rw [hOk.2.2.1 (by decide)]
    decide
  · rw [hOk.2.2.2.2.1 okNone]
    decide
  · rw [hRej.2.1 ⟨"execution reverted"⟩ (by decide)]
    decide

end web3
